import Mathlib

set_option maxHeartbeats 1000000

/-!
Shallow embedding of the dmizr/weightEMA core: the Trainer of
src/trainer.py (checkpointing, best-loss tracking, optional components)
and the prediction-history analyzer of src/plotter.py
(stability / mismatch / misclassification / persistence).

Correctness matrices are lists of rows of booleans; numpy means are exact
rationals. Python-level failures (AssertionError, NameError, ...) are an
explicit error type.
-/

deriving instance DecidableEq for Except

/-- Python-level errors surfaced by the embedded code. The analyzer's shape
assertion (AssertionError) realizes the spec's ShapeMismatch; the resume
check raises ValueError (the InvalidResumeState of the spec). -/
inductive PyError where
  | assertionError
  | nameError
  | valueError
  | indexError
  | typeError
  | attributeError
  deriving DecidableEq, Repr

/-- A 2D numpy boolean array, stored row-major. -/
abbrev Mat := List (List Bool)

/-- Number of columns (width of the first row; inputs are rectangular). -/
def width (m : Mat) : Nat := (m.headD []).length

/-- numpy shape: (rows, cols). -/
def shape (m : Mat) : Nat × Nat := (m.length, width m)

/-- Rectangularity: every row has the declared width. -/
abbrev Rect (m : Mat) : Prop := ∀ r ∈ m, r.length = width m

/-- Booleans as 0/1 rationals (numpy treats True as 1 in means). -/
def bval (b : Bool) : ℚ := if b then 1 else 0

/-- np.mean of a vector (the claims never take the mean of an empty list). -/
def meanQ (l : List ℚ) : ℚ := l.sum / l.length

/-- Broadcast of one dimension pair under numpy rules. -/
def bdim (a b : Nat) : Option Nat :=
  if a = b then some a else if a = 1 then some b else if b = 1 then some a else none

/-- Entry lookup with broadcasting: a dimension of size one repeats. -/
def getEntry (m : Mat) (i j : Nat) : Bool :=
  let r := m.getD (if m.length = 1 then 0 else i) []
  r.getD (if r.length = 1 then 0 else j) false

/-- Elementwise binary operation on two 2D arrays under numpy broadcasting;
ValueError when the shapes are incompatible. -/
def npElementwise (f : Bool → Bool → α) (a b : Mat) :
    Except PyError (List (List α)) :=
  match bdim a.length b.length, bdim (width a) (width b) with
  | some e, some n =>
      Except.ok ((List.range e).map (fun i =>
        (List.range n).map (fun j => f (getEntry a i j) (getEntry b i j))))
  | _, _ => Except.error PyError.valueError

/-- a == b, elementwise. -/
def npEq2D (a b : Mat) : Except PyError Mat :=
  npElementwise (fun x y => x == y) a b

/-- a + b, elementwise, booleans as 0/1. -/
def npAdd2D (a b : Mat) : Except PyError (List (List ℚ)) :=
  npElementwise (fun x y => bval x + bval y) a b

/-- 1D vector addition with numpy length-1 broadcasting. -/
def npAdd1D (u v : List ℚ) : Except PyError (List ℚ) :=
  if u.length = v.length then Except.ok (List.zipWith (· + ·) u v)
  else if u.length = 1 then Except.ok (v.map (fun q => u.getD 0 0 + q))
  else if v.length = 1 then Except.ok (u.map (fun q => q + v.getD 0 0))
  else Except.error PyError.valueError

/-- np.mean(m, axis=0): per-column mean of a boolean matrix. Faithful for
matrices with at least one row; numpy's mean of a zero-row slice is a NaN
vector, which has no rational counterpart, so no theorem exercises colMeans
on a zero-row input. -/
def colMeans (m : Mat) : List ℚ :=
  (List.range (width m)).map (fun j => meanQ (m.map (fun r => bval (r.getD j false))))

/-- np.mean(m, axis=0) of a rational matrix. -/
def colMeansQ (m : List (List ℚ)) : List ℚ :=
  (List.range (m.headD []).length).map (fun j => meanQ (m.map (fun r => r.getD j 0)))

/-- np.mean(m, axis=1): per-row mean of a boolean matrix. -/
def rowMeans (m : Mat) : List ℚ := m.map (fun r => meanQ (r.map bval))

/-- np.mean(m, axis=1) of a rational matrix. -/
def rowMeansQ (m : List (List ℚ)) : List ℚ := m.map meanQ

/-- Elementwise equality of two same-shaped stacked slices
(such as pred[1:] == pred[:-1]). -/
def eqMat (a b : Mat) : Mat :=
  List.zipWith (fun x y => List.zipWith (fun p q => p == q) x y) a b

/-- Stable ascending insertion for argsort. -/
def insertAsc (v : List ℚ) (i : Nat) : List Nat → List Nat
  | [] => [i]
  | j :: t => if v.getD i 0 < v.getD j 0 then i :: j :: t else j :: insertAsc v i t

/-- Helper for argsort: insertion sort of an index list by value. -/
def argsortAux (v : List ℚ) : List Nat → List Nat
  | [] => []
  | i :: t => insertAsc v i (argsortAux v t)

/-- np.argsort: indices that sort the vector ascending (numpy's tie order is
unspecified; no claim depends on it). -/
def argsort (v : List ℚ) : List Nat := argsortAux v (List.range v.length)

/-- One entry of np.convolve(a, v), full mode. -/
def fullConvEntry (a v : List ℚ) (n : Nat) : ℚ :=
  ∑ j in Finset.range (n + 1), a.getD j 0 * v.getD (n - j) 0

/-- np.convolve(a, v), full mode: length la + lv - 1. -/
def fullConv (a v : List ℚ) : List ℚ :=
  (List.range (a.length + v.length - 1)).map (fullConvEntry a v)

/-- np.convolve(a, v, mode="valid"): the central max - min + 1 entries. -/
def convValid (a v : List ℚ) : List ℚ :=
  ((fullConv a v).drop (min a.length v.length - 1)).take
    (max a.length v.length - min a.length v.length + 1)

/-- Lines 74-82 of plot_mismatch: moving-average smoothing by a window of
ones/window in valid mode when window > 0, the unsmoothed series otherwise. -/
def smooth (window : Nat) (s : List ℚ) : List ℚ :=
  if 0 < window then convValid s (List.replicate window (1 / (window : ℚ))) else s

/-- The shape-assertion loop of plot_stability (lines 17-18): every input must
have the shape of the first (an empty input list checks nothing). -/
def stabilityCheck (preds : List Mat) : Bool :=
  preds.all (fun p => decide (shape (preds.headD []) = shape p))

/-- Per-matrix stability series: np.mean(pred[1:] == pred[:-1], axis=1). -/
def stabilitySeries (pred : Mat) : List ℚ :=
  rowMeans (eqMat (pred.drop 1) pred.dropLast)

/-- Companion accuracy series: np.mean(pred[1:], axis=1). -/
def accuracySeries (pred : Mat) : List ℚ := rowMeans (pred.drop 1)

/-- plot_stability: asserts equal shapes, then (line 21) evaluates the
undefined name preds_a when iters is None (NameError); otherwise returns the
stability series and accuracy series of every input. -/
def plot_stability (preds : List Mat) (iters : Option (List Nat)) :
    Except PyError (List (List ℚ) × List (List ℚ)) :=
  if stabilityCheck preds then
    match iters with
    | none => Except.error PyError.nameError
    | some _ => Except.ok (preds.map stabilitySeries, preds.map accuracySeries)
  else Except.error PyError.assertionError

/-- Output of plot_mismatch: histogram data, or one series per pair label. -/
inductive MismatchOut where
  | hist (data : List ℚ)
  | series (ss : List ((Nat × Nat) × List ℚ))
  deriving DecidableEq, Repr

/-- Pair labels (i, i + j + 1) generated by the nested loops of lines 71-72. -/
def pairLabels (k : Nat) : List (Nat × Nat) :=
  (List.range k).flatMap (fun i => (List.range (k - i - 1)).map (fun j => (i, i + j + 1)))

/-- The disagreement series of a pair (a, b) as the claim states it:
1 - np.mean(a == b, axis=1) per epoch. -/
def pairMismatchSeries (a b : Mat) : Except PyError (List ℚ) :=
  (npEq2D a b).map (fun m => (rowMeans m).map (fun q => 1 - q))

/-- plot_mismatch. Histogram mode asserts exactly two inputs and bins
1 - np.mean(preds[0] == preds[1], axis=0). Time-series mode evaluates the
undefined name preds_a when iters is None (line 59); for each pair label the
loop body (line 73) computes its series from preds[0] and preds[1], not from
the pair it is labelled with. -/
def plot_mismatch (preds : List Mat) (iters : Option (List Nat))
    (histogram : Bool) (window : Nat) : Except PyError MismatchOut :=
  if histogram then
    if preds.length = 2 then
      (npEq2D (preds.getD 0 []) (preds.getD 1 [])).map
        (fun m => MismatchOut.hist ((colMeans m).map (fun q => 1 - q)))
    else Except.error PyError.assertionError
  else
    match iters with
    | none => Except.error PyError.nameError
    | some _ =>
      ((pairLabels preds.length).mapM (fun p => do
          let m ← npEq2D (preds.getD 0 []) (preds.getD 1 [])
          pure (p, smooth window ((rowMeans m).map (fun q => 1 - q))))).map
        MismatchOut.series

/-- Labels of plot_misclassification time-series output. -/
inductive MisLabel where
  | single (i : Nat)
  | pair (i l : Nat)
  deriving DecidableEq, Repr

/-- Output of plot_misclassification. -/
inductive MisOut where
  | hist (a b : List ℚ)
  | series (ss : List (MisLabel × List ℚ))
  deriving DecidableEq, Repr

/-- Co-misclassification entry: (pred_a == pred_b) * (1 - pred_a). -/
def coMisEntry (x y : Bool) : ℚ := (if x == y then (1 : ℚ) else 0) * (1 - bval x)

/-- Inner pair loop of plot_misclassification (lines 138-150). With
window > 0 the x-axis expression reads the undefined name match (line 144):
NameError. -/
def misPairs (preds : List Mat) (i : Nat) (window : Nat) :
    Except PyError (List (MisLabel × List ℚ)) :=
  (List.range (preds.length - i - 1)).mapM (fun j => do
    let co ← npElementwise coMisEntry (preds.getD i []) (preds.getD (i + j + 1) [])
    if 0 < window then
      Except.error PyError.nameError
    else
      pure (MisLabel.pair i (i + j + 1), rowMeansQ co))

/-- Outer loop of plot_misclassification (lines 125-150): the per-matrix
error-rate series (plotted only in the window == 0 branch, line 136), then
the pair loop. With window > 0 the x-axis expression of the per-matrix
branch reads the undefined name match (line 131): NameError. -/
def misOuter (preds : List Mat) (window : Nat) :
    Except PyError (List (MisLabel × List ℚ)) :=
  ((List.range preds.length).mapM (fun i => do
      let mis := (rowMeans (preds.getD i [])).map (fun q => 1 - q)
      if 0 < window then
        Except.error PyError.nameError
      else do
        let ps ← misPairs preds i window
        pure ((MisLabel.single i, mis) :: ps))).map List.flatten

/-- plot_misclassification. Histogram mode asserts exactly two inputs and
bins the per-sample error rates over epochs 1..; time-series mode evaluates
the undefined name preds_a when iters is None (line 110). -/
def plot_misclassification (preds : List Mat) (iters : Option (List Nat))
    (histogram : Bool) (window : Nat) : Except PyError MisOut :=
  if histogram then
    if preds.length = 2 then
      Except.ok (MisOut.hist
        ((colMeans ((preds.getD 0 []).drop 1)).map (fun q => 1 - q))
        ((colMeans ((preds.getD 1 []).drop 1)).map (fun q => 1 - q)))
    else Except.error PyError.assertionError
  else
    match iters with
    | none => Except.error PyError.nameError
    | some _ => (misOuter preds window).map MisOut.series

/-- Strip-image assembly of plot_persistence (lines 186-190): for each of the
n_samples selected indices, the column of preds_a, the column of preds_b
(length-1 columns broadcast) and a separator row of -1. An index beyond
top_n raises IndexError, a column index beyond the width raises IndexError,
and a column of incompatible length raises ValueError, as numpy does. -/
def persistenceStrip (a b : Mat) (top : List Nat) (nS : Nat) :
    Except PyError (List (List ℚ)) :=
  ((List.range nS).mapM (fun i => do
    match top.get? i with
    | none => Except.error PyError.indexError
    | some t =>
      if t < width a then
        if t < width b then
          let rowA := a.map (fun (r : List Bool) => bval (r.getD t false))
          let rowB := b.map (fun (r : List Bool) => bval (r.getD t false))
          if rowB.length = rowA.length then
            pure [rowA, rowB, List.replicate a.length (-1 : ℚ)]
          else if rowB.length = 1 then
            pure [rowA, List.replicate a.length (rowB.getD 0 0),
                  List.replicate a.length (-1 : ℚ)]
          else Except.error PyError.valueError
        else Except.error PyError.indexError
      else Except.error PyError.indexError)).map List.flatten

/-- plot_persistence. The three named policies rank the columns; any other
sort value draws n_samples indices without replacement from
np.arange(preds_a.shape[0]) — the EPOCH count, line 184 — modelled by the
caller-supplied draw randChoice (np.random.choice raises ValueError when the
population is smaller than the request). The strip image is then built and
the selected indices returned. -/
def plot_persistence (preds : List Mat) (nSamples : Nat) (sort : String)
    (randChoice : List Nat) : Except PyError (List Nat) :=
  if preds.length = 2 then do
    let a := preds.getD 0 []
    let b := preds.getD 1 []
    let top ←
      match sort with
      | "mismatch" =>
          (npEq2D a b).map (fun m => (argsort (colMeans m)).take nSamples)
      | "misclassification" =>
          (npAdd2D a b).map (fun m => (argsort (colMeansQ m)).take nSamples)
      | "stability" => do
          let s ← npAdd1D (colMeans (eqMat (a.drop 1) a.dropLast))
                          (colMeans (eqMat (b.drop 1) b.dropLast))
          pure ((argsort s).take nSamples)
      | _ =>
          if nSamples ≤ a.length then pure randChoice
          else Except.error PyError.valueError
    let _ ← persistenceStrip a b top nSamples
    pure top
  else Except.error PyError.assertionError

/-- Optional-component configuration of a Trainer (presence only; the opaque
model, optimizer, loaders and writer objects are external collaborators). -/
structure TrainerCfg where
  savePath : Option String
  hasValLoader : Bool
  hasAveraged : Bool
  hasScheduler : Bool
  hasWriter : Bool
  savePreds : Bool
  deriving DecidableEq, Repr

/-- Save events issued by _end_loop and train. -/
inductive SaveAction where
  | mostRecent (epoch : Nat)
  | bestModel (epoch : Nat)
  | avgMostRecent (epoch : Nat)
  | bestAvgModel (epoch : Nat)
  | predsFiles (epoch : Nat)
  deriving DecidableEq, Repr

/-- The comparison self.best_val_loss > val_loss, where the tracker starts at
math.inf (modelled as none). -/
def ltBest (l : ℚ) (best : Option ℚ) : Bool :=
  match best with
  | none => true
  | some b => decide (l < b)

/-- The best-checkpoint step of _end_loop (lines 246-250, and 259-264 for the
averaged variant): overwrite the best checkpoint and update the tracker iff
the strict comparison holds. -/
def stepBest (best : Option ℚ) (l : ℚ) : Bool × Option ℚ :=
  if ltBest l best then (true, some l) else (false, best)

/-- Order on trackers with none as +infinity, for stating monotonicity. -/
def leInf (x y : Option ℚ) : Bool :=
  match x, y with
  | _, none => true
  | none, some _ => false
  | some a, some b => decide (a ≤ b)

/-- The save block of _end_loop (lines 241-275): nothing without a save path;
otherwise the most-recent checkpoint unconditionally, the best checkpoint
gated by the strict loss comparison when a validation loader exists, the
averaged-model pair of saves when an averaged model exists, and the
prediction files when save_preds is set. -/
def end_loop_save_block (cfg : TrainerCfg) (best bestAvg : Option ℚ)
    (valLoss avgValLoss : ℚ) (epoch : Nat) :
    Option ℚ × Option ℚ × List SaveAction :=
  match cfg.savePath with
  | none => (best, bestAvg, [])
  | some _ =>
    let bestRes :=
      if cfg.hasValLoader then
        let s := stepBest best valLoss
        (s.2, if s.1 then [SaveAction.bestModel epoch] else [])
      else (best, ([] : List SaveAction))
    let avgRes :=
      if cfg.hasAveraged then
        if cfg.hasValLoader then
          let s := stepBest bestAvg avgValLoss
          (s.2, SaveAction.avgMostRecent epoch ::
                  (if s.1 then [SaveAction.bestAvgModel epoch] else []))
        else (bestAvg, [SaveAction.avgMostRecent epoch])
      else (bestAvg, ([] : List SaveAction))
    let predActs := if cfg.savePreds then [SaveAction.predsFiles epoch] else []
    (bestRes.1, avgRes.1,
      SaveAction.mostRecent epoch :: (bestRes.2 ++ avgRes.2 ++ predActs))

/-- Iterate the save block of _end_loop over per-epoch (val, averaged-val)
losses, threading both best trackers; returns the save actions of each epoch
and the final trackers. -/
def runEndLoops (cfg : TrainerCfg) (best bestAvg : Option ℚ) (e : Nat) :
    List (ℚ × ℚ) → List (List SaveAction) × Option ℚ × Option ℚ
  | [] => ([], best, bestAvg)
  | (v, av) :: rest =>
    let r := end_loop_save_block cfg best bestAvg v av e
    let t := runEndLoops cfg r.1 r.2.1 (e + 1) rest
    (r.2.2 :: t.1, t.2)

/-- The best tracker after folding the step of _end_loop over a loss
sequence. -/
def foldBest (b : Option ℚ) (ls : List ℚ) : Option ℚ :=
  ls.foldl (fun x l => (stepBest x l).2) b

/-- Whether an epoch's save actions overwrite the best checkpoint. -/
def writesBest (acts : List SaveAction) : Bool :=
  acts.any (fun a => match a with | SaveAction.bestModel _ => true | _ => false)

/-- Whether an epoch's save actions overwrite the best averaged checkpoint. -/
def writesBestAvg (acts : List SaveAction) : Bool :=
  acts.any (fun a => match a with | SaveAction.bestAvgModel _ => true | _ => false)

/-- A full checkpoint as written by _save_model (lines 334-343); model and
optimizer states are opaque payloads. -/
structure Checkpoint where
  epoch : Nat
  optimizerState : Nat
  modelState : Nat
  schedulerState : Option Nat
  deriving DecidableEq, Repr

/-- _save_model invoked at the end of epoch e stores the field epoch + 1
(line 336). -/
def save_model (optSt mdlSt : Nat) (schedSt : Option Nat) (epoch : Nat) :
    Checkpoint :=
  { epoch := epoch + 1, optimizerState := optSt, modelState := mdlSt,
    schedulerState := schedSt }

/-- _load_from_checkpoint (lines 353-366): restore the states, set
start_epoch from the stored epoch field, load scheduler state when a
scheduler is configured (load_state_dict(None) raises TypeError), then
reject start_epoch > epochs with ValueError — the InvalidResumeState of the
spec. On success returns the new start_epoch. -/
def load_from_checkpoint (hasScheduler : Bool) (c : Checkpoint) (epochs : Nat) :
    Except PyError Nat :=
  if hasScheduler && decide (c.schedulerState = none) then
    Except.error PyError.typeError
  else if epochs < c.epoch then Except.error PyError.valueError
  else Except.ok c.epoch

/-- range(self.start_epoch, self.epochs): the epoch indices train() runs
(line 109). -/
def trainEpochs (startEpoch epochs : Nat) : List Nat :=
  List.range' startEpoch (epochs - startEpoch)

/-- _write_to_tb (lines 304-332): the scalar tags emitted. Inside the
averaged-model block the Model/lr line (line 331) reads
self.scheduler.get_last_lr() without a presence check, so a configuration
with writer, val loader and averaged model but no scheduler raises
AttributeError. -/
def write_to_tb (hasVal hasAvg hasScheduler : Bool) :
    Except PyError (List String) :=
  let base := ["Loss/train", "Accuracy/train"]
  if hasVal then
    let withVal := base ++ ["Loss/val", "Accuracy/val"]
    if hasAvg then
      if hasScheduler then
        Except.ok (withVal ++ ["Loss/averaged_val", "Accuracy/averaged_val",
          "Model/model_weight_norm", "Model/avg_model_weight_norm",
          "Model/weight_diff_norm", "Model/lr"])
      else Except.error PyError.attributeError
    else Except.ok withVal
  else Except.ok base

/-- os.path.join: TypeError when the base component is None. -/
def osPathJoin (base : Option String) (s : String) : Except PyError String :=
  match base with
  | none => Except.error PyError.typeError
  | some p => Except.ok (p ++ "/" ++ s)

/-- One epoch of train() (lines 109-120): the train and validation loops are
opaque and individually guarded; the tensorboard write runs when a writer is
present (line 237), then the save block of _end_loop. -/
def epochLoop (cfg : TrainerCfg) (best bestAvg : Option ℚ) (e : Nat) :
    List (ℚ × ℚ) → Except PyError (Option ℚ × Option ℚ)
  | [] => Except.ok (best, bestAvg)
  | (v, av) :: rest => do
    let _ ← if cfg.hasWriter then
              write_to_tb cfg.hasValLoader cfg.hasAveraged cfg.hasScheduler
            else Except.ok []
    let r := end_loop_save_block cfg best bestAvg v av e
    epochLoop cfg r.1 r.2.1 (e + 1) rest

/-- train() (lines 104-128): the epoch loop, then the UNGUARDED final saves
of lines 124-128 — os.path.join(self.save_path, "final_model.pt") is
evaluated even when save_path is None. -/
def trainPy (cfg : TrainerCfg) (losses : List (ℚ × ℚ)) :
    Except PyError (Option ℚ × Option ℚ) := do
  let st ← epochLoop cfg none none 0 losses
  let _ ← osPathJoin cfg.savePath "final_model.pt"
  if cfg.hasAveraged then
    let _ ← osPathJoin cfg.savePath "final_averaged_model.pt"
    pure st
  else
    pure st

/-- A Trainer with saving, validation and an averaged model enabled — the
configuration claim C1 quantifies over. -/
def cfgFull : TrainerCfg :=
  { savePath := some "checkpoints", hasValLoader := true, hasAveraged := true,
    hasScheduler := false, hasWriter := false, savePreds := false }

/-- A concrete two-epoch loss sequence: validation losses 3 then 2,
averaged-model validation losses 4 then 5. -/
def lossSeqW : List (ℚ × ℚ) := [(3, 4), (2, 5)]

/-- A Trainer without a save path (documented as "disabled if None"). -/
def cfgNoSave : TrainerCfg :=
  { savePath := none, hasValLoader := true, hasAveraged := false,
    hasScheduler := false, hasWriter := false, savePreds := false }

example : plot_stability [[[false], [true]], [[false], [true]]] (some [0, 1]) =
    Except.ok ([[0], [0]], [[1], [1]]) := by with_unfolding_all decide

example : trainPy cfgNoSave [(1, 1)] = Except.error PyError.typeError := by
  with_unfolding_all decide

example : write_to_tb true true false = Except.error PyError.attributeError := by
  decide

example :
    (runEndLoops cfgFull none none 0 [(3, 3), (5/2, 5/2), (5/2, 5/2), (2, 2), (13/5, 13/5)]).1.map writesBest
      = [true, true, false, true, false] := by with_unfolding_all decide

example : plot_mismatch [[[true, false]], [[true, true], [false, true]]] none true 0 =
    Except.ok (MismatchOut.hist [1/2, 1]) := by with_unfolding_all decide

example : plot_mismatch [[[true]], [[true]], [[false]]] (some [0]) false 0 =
    Except.ok (MismatchOut.series [((0, 1), [0]), ((0, 2), [0]), ((1, 2), [0])]) := by
  with_unfolding_all decide

example : plot_misclassification [[[true], [false]], [[true], [false]]] (some [0, 1]) false 2 =
    Except.error PyError.nameError := by with_unfolding_all decide

example : plot_persistence [List.replicate 3 [true, true], List.replicate 3 [true, true]]
    3 "random" [0, 1, 2] = Except.error PyError.indexError := by with_unfolding_all decide

theorem getD_map_range (l : List ℚ) :
    (List.range l.length).map (fun n => l.getD n 0) = l := by
  apply List.ext_getElem
  · simp
  · intro i h1 h2
    simp [List.getD_eq_getElem?_getD, List.getElem?_eq_getElem h2]

theorem fullConv_singleton (a : List ℚ) (c : ℚ) :
    fullConv a [c] = a.map (fun q => q * c) := by
  apply List.ext_getElem
  · simp [fullConv]
  · intro i h1 h2
    have hi : i < a.length := by simpa using h2
    simp only [fullConv, List.getElem_map, List.getElem_range, fullConvEntry]
    rw [Finset.sum_eq_single i]
    · simp [List.getD_eq_getElem?_getD, List.getElem?_eq_getElem hi]
    · intro b hb hne
      have hblt : b < i + 1 := Finset.mem_range.mp hb
      obtain ⟨k, hk⟩ : ∃ k, i - b = k + 1 := ⟨i - b - 1, by omega⟩
      rw [hk]
      simp [List.getD]
    · intro hni
      exact absurd (Finset.mem_range.mpr (by omega)) hni

theorem convValid_singleton (a : List ℚ) (c : ℚ) :
    convValid a [c] = a.map (fun q => q * c) := by
  cases a with
  | nil => simp [convValid, fullConv]
  | cons x t =>
    have h1 : min (x :: t).length ([c] : List ℚ).length = 1 := by
      simp [Nat.min_def]
    have h2 : max (x :: t).length ([c] : List ℚ).length = (x :: t).length := by
      simp [Nat.max_def]
    rw [convValid, fullConv_singleton, h1, h2]
    simp

/-- C7: for every series of length L and window w with 1 <= w <= L, the
valid-mode moving-average smoothing outputs exactly L - w + 1 points, and
for w = 1 (and w = 0, meaning no smoothing) the output equals the input. -/
theorem smoothing_length_identity (s : List ℚ) (w : Nat) (h1 : 1 ≤ w)
    (h2 : w ≤ s.length) :
    (smooth w s).length = s.length - w + 1 ∧ smooth 1 s = s ∧ smooth 0 s = s := by
  refine ⟨?_, ?_, ?_⟩
  · have hw : 0 < w := h1
    simp only [smooth, if_pos hw, convValid, List.length_take, List.length_drop,
      fullConv, List.length_map, List.length_range, List.length_replicate]
    omega
  · rw [smooth, if_pos (by norm_num)]
    have hk : List.replicate 1 (1 / ((1 : Nat) : ℚ)) = [(1 : ℚ)] := by norm_num
    rw [hk, convValid_singleton]
    simp
  · simp [smooth]

/-- Witness for C7 at the series [1, 2, 3] with window 2. -/
theorem smoothing_length_identity_witness :
    (smooth 2 [(1 : ℚ), 2, 3]).length = [(1 : ℚ), 2, 3].length - 2 + 1 ∧
    smooth 1 [(1 : ℚ), 2, 3] = [(1 : ℚ), 2, 3] ∧
    smooth 0 [(1 : ℚ), 2, 3] = [(1 : ℚ), 2, 3] :=
  smoothing_length_identity [(1 : ℚ), 2, 3] 2 (by decide) (by decide)

/-- C3 (code bug): the random fallback of plot_persistence draws from
np.arange(preds_a.shape[0]) — the epoch count — so with two 3×2 matrices and
n_samples = 3 the draw is a permutation of {0, 1, 2}, index 2 is not a valid
sample index (the width is 2), and building the strip raises IndexError
instead of returning n_samples indices inside [0, N). -/
theorem persistence_random_range_bug :
    plot_persistence [List.replicate 3 [true, true], List.replicate 3 [true, true]]
        3 "random" [0, 1, 2] = Except.error PyError.indexError ∧
    ¬ 2 < width (List.replicate 3 [true, true]) := by
  with_unfolding_all decide

/-- C4 (code bug): in time-series mode with the three 1×1 matrices
[[T]], [[T]], [[F]], every pair label receives the series computed from
preds[0] and preds[1] (line 73), so the pair (0, 2) is reported as [0] even
though the disagreement series of matrices 0 and 2 is [1]. -/
theorem mismatch_pair_series_bug :
    plot_mismatch [[[true]], [[true]], [[false]]] (some [0]) false 0 =
      Except.ok (MismatchOut.series [((0, 1), [0]), ((0, 2), [0]), ((1, 2), [0])]) ∧
    pairMismatchSeries [[true]] [[false]] = Except.ok [1] ∧
    ([(1 : ℚ)] : List ℚ) ≠ [0] := by
  with_unfolding_all decide

/-- C5 (code bug): in time-series mode any window > 0 reads the undefined
name match while building the x axis (lines 131 and 144), so smoothing never
runs: the same input succeeds with window = 0 but raises NameError with
window = 2. -/
theorem misclassification_window_bug :
    plot_misclassification [[[true], [false]], [[true], [false]]] (some [0, 1]) false 2 =
      Except.error PyError.nameError ∧
    plot_misclassification [[[true], [false]], [[true], [false]]] (some [0, 1]) false 0 =
      Except.ok (MisOut.series
        [(MisLabel.single 0, [0, 1]), (MisLabel.pair 0 1, [0, 1]),
         (MisLabel.single 1, [0, 1])]) := by
  with_unfolding_all decide

/-- C6 (code bug): train() run to completion with save_path = None reaches
the unguarded os.path.join of line 124 and raises TypeError, and _write_to_tb
with writer, val loader and averaged model present but scheduler = None
dereferences the absent scheduler at line 331 and raises AttributeError. -/
theorem optional_component_deref_bug :
    trainPy cfgNoSave [(1, 1)] = Except.error PyError.typeError ∧
    write_to_tb true true false = Except.error PyError.attributeError := by
  with_unfolding_all decide

/-- C9 (counterexample): plot_mismatch in histogram mode, given two
correctness matrices of DIFFERENT shapes (1×2 and 2×2), performs no shape
check at all — it broadcasts, computes the full mismatch histogram and
returns it, instead of failing with the ShapeMismatch assertion. -/
theorem analyzer_shape_check_cex :
    shape [[true, false]] ≠ shape [[true, true], [false, true]] ∧
    plot_mismatch [[[true, false]], [[true, true], [false, true]]] none true 0 =
      Except.ok (MismatchOut.hist [1/2, 1]) := by
  with_unfolding_all decide

/-- C10 (counterexample): for a = [[F], [T]] (shape 2×1), plot_stability on
the pair (a, a) returns the stability series [0] for each copy — a's own
epoch-to-epoch agreement — not a series of all 1.0. -/
theorem stability_self_pair_cex :
    plot_stability [[[false], [true]], [[false], [true]]] (some [0, 1]) =
      Except.ok ([[0], [0]], [[1], [1]]) ∧ (0 : ℚ) ≠ 1 := by
  with_unfolding_all decide

/-- C8: loading a checkpoint sets start_epoch to the stored epoch field and
raises (ValueError, the InvalidResumeState of the spec) iff the stored epoch
exceeds the configured total; equality is accepted — never clamped — and
then range(epochs, epochs) trains zero further epochs. Stated for
checkpoints whose optional scheduler state matches the configuration. -/
theorem load_checkpoint_resume_check (hasSched : Bool) (c : Checkpoint)
    (epochs : Nat) (hc : hasSched = true → c.schedulerState ≠ none) :
    (load_from_checkpoint hasSched c epochs = Except.error PyError.valueError ↔
      epochs < c.epoch) ∧
    (load_from_checkpoint hasSched c epochs = Except.ok c.epoch ↔
      c.epoch ≤ epochs) ∧
    trainEpochs epochs epochs = [] := by
  have hs : (hasSched && decide (c.schedulerState = none)) = false := by
    cases hh : hasSched
    · rfl
    · simp [hc hh]
  refine ⟨?_, ?_, ?_⟩
  · by_cases h : epochs < c.epoch
    · simp [load_from_checkpoint, hs, h]
    · simp [load_from_checkpoint, hs, h]
  · by_cases h : epochs < c.epoch
    · simp [load_from_checkpoint, hs, h]
    · simp [load_from_checkpoint, hs, h]
      omega
  · simp [trainEpochs]

/-- Witness for C8: stored epoch 2 loaded into a 2-epoch schedule is
accepted (no error, no clamping) and trains zero further epochs. -/
theorem load_checkpoint_resume_check_witness :
    (load_from_checkpoint false
        { epoch := 2, optimizerState := 0, modelState := 0,
          schedulerState := none } 2 = Except.error PyError.valueError ↔ 2 < 2) ∧
    (load_from_checkpoint false
        { epoch := 2, optimizerState := 0, modelState := 0,
          schedulerState := none } 2 = Except.ok 2 ↔ 2 ≤ 2) ∧
    trainEpochs 2 2 = [] :=
  load_checkpoint_resume_check false
    { epoch := 2, optimizerState := 0, modelState := 0, schedulerState := none }
    2 (by simp)

/-- C2: the checkpoint saved at the end of epoch e stores the field e + 1;
loading it sets start_epoch = e + 1; training to completion then runs
exactly the epochs of [e+1, epochs) — the right count, all in range, no
duplicates — and the epochs of the split run, [s, e] then [e+1, epochs),
compose to the uninterrupted range [s, epochs). -/
theorem resume_invariant (s e epochs optSt mdlSt : Nat) (schedSt : Option Nat)
    (hasSched : Bool) (h1 : s ≤ e) (h2 : e < epochs)
    (hc : hasSched = true → schedSt ≠ none) :
    (save_model optSt mdlSt schedSt e).epoch = e + 1 ∧
    load_from_checkpoint hasSched (save_model optSt mdlSt schedSt e) epochs =
      Except.ok (e + 1) ∧
    (trainEpochs (e + 1) epochs).length = epochs - (e + 1) ∧
    (trainEpochs (e + 1) epochs).all
      (fun x => decide (e + 1 ≤ x) && decide (x < epochs)) = true ∧
    (trainEpochs (e + 1) epochs).Nodup ∧
    trainEpochs s (e + 1) ++ trainEpochs (e + 1) epochs = trainEpochs s epochs := by
  have hs : (hasSched && decide ((save_model optSt mdlSt schedSt e).schedulerState
      = none)) = false := by
    cases hh : hasSched
    · rfl
    · simp [save_model, hc hh]
  refine ⟨rfl, ?_, ?_, ?_, ?_, ?_⟩
  · rw [load_from_checkpoint]
    rw [if_neg (by simp [hs])]
    rw [if_neg (by simp [save_model]; omega)]
    rfl
  · simp [trainEpochs]
  · simp only [List.all_eq_true]
    intro x hx
    rw [trainEpochs, List.mem_range'_1] at hx
    simp only [Bool.and_eq_true, decide_eq_true_eq]
    omega
  · exact List.nodup_range' _ _
  · have hap := List.range'_append_1 s (e + 1 - s) (epochs - (e + 1))
    rw [show s + (e + 1 - s) = e + 1 from by omega] at hap
    rw [trainEpochs, trainEpochs, trainEpochs, hap]
    congr 1
    omega

/-- Witness for C2: a three-epoch schedule interrupted after epoch 1. -/
theorem resume_invariant_witness :
    (save_model 0 0 none 1).epoch = 1 + 1 ∧
    load_from_checkpoint false (save_model 0 0 none 1) 3 = Except.ok (1 + 1) ∧
    (trainEpochs (1 + 1) 3).length = 3 - (1 + 1) ∧
    (trainEpochs (1 + 1) 3).all
      (fun x => decide (1 + 1 ≤ x) && decide (x < 3)) = true ∧
    (trainEpochs (1 + 1) 3).Nodup ∧
    trainEpochs 0 (1 + 1) ++ trainEpochs (1 + 1) 3 = trainEpochs 0 3 :=
  resume_invariant 0 1 3 0 0 none false (by decide) (by decide) (by simp)

/-- C9 (amended): only the stability operation checks input shapes — whenever
the assertion of lines 17-18 finds a shape differing from the first input's,
plot_stability fails with the AssertionError realizing ShapeMismatch before
computing any statistic; the other analyzer operations perform no shape
check at all, e.g. histogram misclassification on a 3×2 and a 2×2 matrix
computes and returns both per-sample error-rate histograms. -/
theorem shape_check_stability_only (preds : List Mat) (it : Option (List Nat))
    (h : stabilityCheck preds = false) :
    plot_stability preds it = Except.error PyError.assertionError ∧
    plot_misclassification
        [[[true, false], [true, false], [true, false]], [[true, true], [false, true]]]
        none true 0 = Except.ok (MisOut.hist [0, 1] [1, 0]) ∧
    shape [[true, false], [true, false], [true, false]] ≠
      shape [[true, true], [false, true]] := by
  refine ⟨?_, ?_, ?_⟩
  · simp [plot_stability, h]
  · with_unfolding_all decide
  · decide

/-- Witness for C9's amended statement: a 1×1 and a 2×1 matrix fail the
stability shape assertion. -/
theorem shape_check_stability_only_witness :
    stabilityCheck [[[true]], [[true], [true]]] = false ∧
    (plot_stability [[[true]], [[true], [true]]] none =
        Except.error PyError.assertionError ∧
     plot_misclassification
        [[[true, false], [true, false], [true, false]], [[true, true], [false, true]]]
        none true 0 = Except.ok (MisOut.hist [0, 1] [1, 0]) ∧
     shape [[true, false], [true, false], [true, false]] ≠
       shape [[true, true], [false, true]]) :=
  ⟨by decide, shape_check_stability_only [[[true]], [[true], [true]]] none (by decide)⟩

theorem sum_bval_le (l : List Bool) : (l.map bval).sum ≤ (l.length : ℚ) := by
  induction l with
  | nil => simp
  | cons b t ih =>
    have hb : bval b ≤ 1 := by cases b <;> simp [bval]
    simp only [List.map_cons, List.sum_cons, List.length_cons]
    push_cast
    linarith

theorem sum_bval_eq_iff (l : List Bool) :
    (l.map bval).sum = (l.length : ℚ) ↔ ∀ b ∈ l, b = true := by
  induction l with
  | nil => simp
  | cons b t ih =>
    simp only [List.map_cons, List.sum_cons, List.length_cons,
      List.forall_mem_cons]
    have ht := sum_bval_le t
    cases b with
    | false =>
      have hb : bval false = 0 := rfl
      rw [hb]
      push_cast at ht ⊢
      constructor
      · intro h
        exfalso
        linarith
      · rintro ⟨hfalse, -⟩
        exact hfalse.elim
    | true =>
      have hb : bval true = 1 := rfl
      rw [hb]
      push_cast at ht ih ⊢
      constructor
      · intro h
        exact ⟨rfl, ih.mp (by linarith)⟩
      · rintro ⟨-, hall⟩
        have := ih.mpr hall
        linarith

theorem meanQ_bval_eq_one (l : List Bool) (h : l ≠ []) :
    (meanQ (l.map bval) = 1) ↔ ∀ b ∈ l, b = true := by
  have hl : ((l.length : ℚ)) ≠ 0 := by
    have : l.length ≠ 0 := by
      intro hc
      exact h (List.eq_nil_of_length_eq_zero hc)
    exact_mod_cast this
  rw [meanQ, List.length_map, div_eq_one_iff_eq hl]
  exact sum_bval_eq_iff l

theorem zip_beq_eq_iff (x y : List Bool) (h : x.length = y.length) :
    (∀ b ∈ List.zipWith (fun p q => p == q) x y, b = true) ↔ x = y := by
  induction x generalizing y with
  | nil =>
    cases y with
    | nil => simp
    | cons c u => simp at h
  | cons a t ih =>
    cases y with
    | nil => simp at h
    | cons c u =>
      simp only [List.zipWith_cons_cons, List.forall_mem_cons, List.cons.injEq]
      rw [ih u (by simpa using h)]
      simp [beq_iff_eq]

theorem stabilitySeries_cons_cons (r1 r2 : List Bool) (t : Mat) :
    stabilitySeries (r1 :: r2 :: t) =
      meanQ ((List.zipWith (fun p q => p == q) r2 r1).map bval) ::
        stabilitySeries (r2 :: t) := rfl

theorem stability_all_one_iff (w : Nat) (hw : 1 ≤ w) :
    ∀ (a : Mat), (∀ r ∈ a, r.length = w) →
      (((stabilitySeries a).all (fun q => decide (q = 1)) = true) ↔
        List.Chain' (fun r s => r = s) a)
  | [] => by
    intro _
    simp [stabilitySeries, eqMat, rowMeans]
  | [r] => by
    intro _
    simp [stabilitySeries, eqMat, rowMeans]
  | r1 :: r2 :: t => by
    intro hr
    rw [stabilitySeries_cons_cons, List.chain'_cons]
    have h1 : r1.length = w := hr r1 (by simp)
    have h2 : r2.length = w := hr r2 (by simp)
    have hz : (List.zipWith (fun p q => p == q) r2 r1) ≠ [] := by
      have hlen : (List.zipWith (fun p q => p == q) r2 r1).length = w := by
        rw [List.length_zipWith, h1, h2]
        omega
      intro hcon
      rw [hcon] at hlen
      simp at hlen
      omega
    have ih := stability_all_one_iff w hw (r2 :: t)
      (fun r hmem => hr r (List.mem_cons_of_mem r1 hmem))
    simp only [List.all_cons, Bool.and_eq_true, decide_eq_true_eq]
    rw [meanQ_bval_eq_one _ hz, zip_beq_eq_iff r2 r1 (by rw [h1, h2]), ih]
    constructor
    · rintro ⟨hx, hy⟩
      exact ⟨hx.symm, hy⟩
    · rintro ⟨hx, hy⟩
      exact ⟨hx.symm, hy⟩

/-- C10 (amended): for every rectangular correctness matrix a with E >= 2
epochs and N >= 1 samples (and iters supplied), plot_stability on the pair
(a, a) returns two copies of a's own epoch-to-epoch agreement series
np.mean(a[1:] == a[:-1], axis=1); that series is all 1.0 exactly when every
two consecutive epoch rows of a agree — e.g. a constant across epochs — not
for every a. -/
theorem stability_self_pair (a : Mat) (it : List Nat) (hrect : Rect a)
    (_hE : 2 ≤ a.length) (hN : 1 ≤ width a) :
    plot_stability [a, a] (some it) =
      Except.ok ([stabilitySeries a, stabilitySeries a],
                 [accuracySeries a, accuracySeries a]) ∧
    ((stabilitySeries a).all (fun q => decide (q = 1)) = true ↔
      List.Chain' (fun r s => r = s) a) := by
  constructor
  · have hchk : stabilityCheck [a, a] = true := by simp [stabilityCheck]
    simp [plot_stability, hchk]
  · exact stability_all_one_iff (width a) hN a hrect

/-- Witness for C10's amended statement at the constant 2×1 matrix. -/
theorem stability_self_pair_witness :
    plot_stability [[[true], [true]], [[true], [true]]] (some [0, 1]) =
      Except.ok ([stabilitySeries [[true], [true]], stabilitySeries [[true], [true]]],
                 [accuracySeries [[true], [true]], accuracySeries [[true], [true]]]) ∧
    ((stabilitySeries [[true], [true]]).all (fun q => decide (q = 1)) = true ↔
      List.Chain' (fun r s => r = s) [[true], [true]]) :=
  stability_self_pair [[true], [true]] [0, 1] (by decide) (by decide) (by decide)

theorem stepBest_fst (b : Option ℚ) (l : ℚ) : (stepBest b l).1 = ltBest l b := by
  rw [stepBest]
  split
  · next h => exact h.symm
  · next h => exact (Bool.not_eq_true _).mp h |>.symm

theorem stepBest_snd (b : Option ℚ) (l : ℚ) :
    (stepBest b l).2 = if ltBest l b then some l else b := by
  rw [stepBest]
  split
  · next h => simp [h]
  · next h => simp [(Bool.not_eq_true _).mp h]

theorem foldBest_cons (b : Option ℚ) (l : ℚ) (ls : List ℚ) :
    foldBest b (l :: ls) = foldBest (stepBest b l).2 ls := rfl

theorem foldBest_append (b : Option ℚ) (u w : List ℚ) :
    foldBest b (u ++ w) = foldBest (foldBest b u) w := by
  simp [foldBest]

theorem writesBest_block (e : Nat) (c1 c2 : Bool) :
    writesBest (SaveAction.mostRecent e ::
      ((if c1 then [SaveAction.bestModel e] else []) ++
       (SaveAction.avgMostRecent e ::
         (if c2 then [SaveAction.bestAvgModel e] else [])))) = c1 := by
  cases c1 <;> cases c2 <;> simp [writesBest]

theorem writesBestAvg_block (e : Nat) (c1 c2 : Bool) :
    writesBestAvg (SaveAction.mostRecent e ::
      ((if c1 then [SaveAction.bestModel e] else []) ++
       (SaveAction.avgMostRecent e ::
         (if c2 then [SaveAction.bestAvgModel e] else [])))) = c2 := by
  cases c1 <;> cases c2 <;> simp [writesBestAvg]

theorem end_loop_save_block_full (b ba : Option ℚ) (v av : ℚ) (e : Nat) :
    end_loop_save_block cfgFull b ba v av e =
      ((stepBest b v).2, (stepBest ba av).2,
        SaveAction.mostRecent e ::
          ((if (stepBest b v).1 then [SaveAction.bestModel e] else []) ++
           (SaveAction.avgMostRecent e ::
             (if (stepBest ba av).1 then [SaveAction.bestAvgModel e] else [])))) := by
  rw [end_loop_save_block]
  simp [cfgFull]

theorem runEndLoops_length (cfg : TrainerCfg) (b ba : Option ℚ) (e : Nat)
    (ls : List (ℚ × ℚ)) : (runEndLoops cfg b ba e ls).1.length = ls.length := by
  induction ls generalizing b ba e with
  | nil => rfl
  | cons p rest ih =>
    obtain ⟨v, av⟩ := p
    simp [runEndLoops, ih]

theorem runEndLoops_state (b ba : Option ℚ) (e : Nat) (ls : List (ℚ × ℚ)) :
    (runEndLoops cfgFull b ba e ls).2 =
      (foldBest b (ls.map Prod.fst), foldBest ba (ls.map Prod.snd)) := by
  induction ls generalizing b ba e with
  | nil => rfl
  | cons p rest ih =>
    obtain ⟨v, av⟩ := p
    simp only [runEndLoops, end_loop_save_block_full, List.map_cons, foldBest_cons]
    exact ih _ _ _

theorem runEndLoops_writesBest (ls : List (ℚ × ℚ)) :
    ∀ (i : Nat) (b ba : Option ℚ) (e : Nat), i < ls.length →
      writesBest ((runEndLoops cfgFull b ba e ls).1.getD i []) =
        ltBest (ls.getD i (0, 0)).1 (foldBest b ((ls.take i).map Prod.fst)) := by
  induction ls with
  | nil =>
    intro i _ _ _ h
    simp at h
  | cons p rest ih =>
    obtain ⟨v, av⟩ := p
    intro i b ba e hi
    cases i with
    | zero =>
      simp only [runEndLoops, end_loop_save_block_full, List.getD_cons_zero,
        List.take_zero, List.map_nil]
      rw [writesBest_block, stepBest_fst]
      rfl
    | succ j =>
      have hj : j < rest.length := by simpa using hi
      simp only [runEndLoops, end_loop_save_block_full, List.getD_cons_succ,
        List.take_succ_cons, List.map_cons, foldBest_cons]
      exact ih j _ _ _ hj

theorem runEndLoops_writesBestAvg (ls : List (ℚ × ℚ)) :
    ∀ (i : Nat) (b ba : Option ℚ) (e : Nat), i < ls.length →
      writesBestAvg ((runEndLoops cfgFull b ba e ls).1.getD i []) =
        ltBest (ls.getD i (0, 0)).2 (foldBest ba ((ls.take i).map Prod.snd)) := by
  induction ls with
  | nil =>
    intro i _ _ _ h
    simp at h
  | cons p rest ih =>
    obtain ⟨v, av⟩ := p
    intro i b ba e hi
    cases i with
    | zero =>
      simp only [runEndLoops, end_loop_save_block_full, List.getD_cons_zero,
        List.take_zero, List.map_nil]
      rw [writesBestAvg_block, stepBest_fst]
      rfl
    | succ j =>
      have hj : j < rest.length := by simpa using hi
      simp only [runEndLoops, end_loop_save_block_full, List.getD_cons_succ,
        List.take_succ_cons, List.map_cons, foldBest_cons]
      exact ih j _ _ _ hj

theorem leInf_refl (x : Option ℚ) : leInf x x = true := by
  cases x <;> simp [leInf]

theorem leInf_stepBest (b : Option ℚ) (l : ℚ) : leInf (stepBest b l).2 b = true := by
  cases b with
  | none => rfl
  | some bb =>
    by_cases h : l < bb
    · simp [stepBest, ltBest, h, leInf, le_of_lt h]
    · simp [stepBest, ltBest, h, leInf]

theorem foldBest_take_mono (ls : List ℚ) (i : Nat) (b : Option ℚ) :
    leInf (foldBest b (ls.take (i + 1))) (foldBest b (ls.take i)) = true := by
  rw [List.take_succ, foldBest_append]
  cases h : ls[i]? with
  | none => simp [foldBest, leInf_refl]
  | some l =>
    simp only [Option.toList_some]
    rw [foldBest_cons]
    show leInf (foldBest (stepBest _ l).2 []) _ = true
    exact leInf_stepBest _ l

theorem foldBest_take_succ (ls : List ℚ) (i : Nat) (hi : i < ls.length)
    (b : Option ℚ) :
    foldBest b (ls.take (i + 1)) = (stepBest (foldBest b (ls.take i)) (ls.getD i 0)).2 := by
  rw [List.take_succ, foldBest_append, List.getElem?_eq_getElem hi]
  simp only [Option.toList_some]
  rw [foldBest_cons]
  simp [foldBest, List.getD_eq_getElem?_getD, List.getElem?_eq_getElem hi]

/-- C1: for every sequence of per-epoch (val, averaged-val) losses, the save
block of _end_loop — with saving, validation and an averaged model enabled —
writes the best checkpoint in epoch i exactly when that epoch's validation
loss is strictly below the best seen so far (so ties do not overwrite), and
likewise for the averaged variant's best_avg_val_loss; both trackers start
at +infinity (none), are set to the new loss exactly on a write and are
unchanged otherwise, and are monotonically non-increasing across epochs. -/
theorem best_checkpoint_gate_monotone (losses : List (ℚ × ℚ)) (i : Nat)
    (hi : i < losses.length) :
    (writesBest ((runEndLoops cfgFull none none 0 losses).1.getD i []) =
      ltBest (losses.getD i (0, 0)).1
        (runEndLoops cfgFull none none 0 (losses.take i)).2.1) ∧
    (writesBestAvg ((runEndLoops cfgFull none none 0 losses).1.getD i []) =
      ltBest (losses.getD i (0, 0)).2
        (runEndLoops cfgFull none none 0 (losses.take i)).2.2) ∧
    (runEndLoops cfgFull none none 0 (losses.take 0)).2.1 = none ∧
    (runEndLoops cfgFull none none 0 (losses.take 0)).2.2 = none ∧
    leInf (runEndLoops cfgFull none none 0 (losses.take (i + 1))).2.1
      (runEndLoops cfgFull none none 0 (losses.take i)).2.1 = true ∧
    leInf (runEndLoops cfgFull none none 0 (losses.take (i + 1))).2.2
      (runEndLoops cfgFull none none 0 (losses.take i)).2.2 = true ∧
    (writesBest ((runEndLoops cfgFull none none 0 losses).1.getD i []) = true →
      (runEndLoops cfgFull none none 0 (losses.take (i + 1))).2.1 =
        some (losses.getD i (0, 0)).1) ∧
    (writesBest ((runEndLoops cfgFull none none 0 losses).1.getD i []) = false →
      (runEndLoops cfgFull none none 0 (losses.take (i + 1))).2.1 =
        (runEndLoops cfgFull none none 0 (losses.take i)).2.1) := by
  have hfst : ∀ k, (runEndLoops cfgFull none none 0 (losses.take k)).2.1 =
      foldBest none ((losses.map Prod.fst).take k) := by
    intro k
    rw [runEndLoops_state]
    simp [List.map_take]
  have hsnd : ∀ k, (runEndLoops cfgFull none none 0 (losses.take k)).2.2 =
      foldBest none ((losses.map Prod.snd).take k) := by
    intro k
    rw [runEndLoops_state]
    simp [List.map_take]
  have hw := runEndLoops_writesBest losses i none none 0 hi
  have hwa := runEndLoops_writesBestAvg losses i none none 0 hi
  have hvi : (losses.map Prod.fst).getD i 0 = (losses.getD i (0, 0)).1 := by
    simp [List.getD_eq_getElem?_getD, List.getElem?_eq_getElem hi,
      List.getElem?_eq_getElem (by simpa using hi : i < (losses.map Prod.fst).length)]
  have hi2 : i < (losses.map Prod.fst).length := by simpa using hi
  refine ⟨?_, ?_, rfl, rfl, ?_, ?_, ?_, ?_⟩
  · rw [hw, hfst i, List.map_take]
  · rw [hwa, hsnd i, List.map_take]
  · rw [hfst (i + 1), hfst i]
    exact foldBest_take_mono (losses.map Prod.fst) i none
  · rw [hsnd (i + 1), hsnd i]
    exact foldBest_take_mono (losses.map Prod.snd) i none
  · intro h
    rw [hfst (i + 1), foldBest_take_succ _ i hi2, stepBest_snd]
    have hlt : ltBest ((losses.map Prod.fst).getD i 0)
        (foldBest none ((losses.map Prod.fst).take i)) = true := by
      rw [hvi, ← List.map_take]
      exact hw.symm.trans h
    rw [if_pos hlt, hvi]
  · intro h
    rw [hfst (i + 1), foldBest_take_succ _ i hi2, stepBest_snd]
    have hlf : ltBest ((losses.map Prod.fst).getD i 0)
        (foldBest none ((losses.map Prod.fst).take i)) = false := by
      rw [hvi, ← List.map_take]
      exact hw.symm.trans h
    rw [if_neg (by rw [hlf]; decide), hfst i]

/-- Witness for C1 at the loss sequence (3, 4), (2, 5) and epoch index 1. -/
theorem best_checkpoint_gate_monotone_witness :
    (writesBest ((runEndLoops cfgFull none none 0 lossSeqW).1.getD 1 []) =
      ltBest (lossSeqW.getD 1 (0, 0)).1
        (runEndLoops cfgFull none none 0 (lossSeqW.take 1)).2.1) ∧
    (writesBestAvg ((runEndLoops cfgFull none none 0 lossSeqW).1.getD 1 []) =
      ltBest (lossSeqW.getD 1 (0, 0)).2
        (runEndLoops cfgFull none none 0 (lossSeqW.take 1)).2.2) ∧
    (runEndLoops cfgFull none none 0 (lossSeqW.take 0)).2.1 = none ∧
    (runEndLoops cfgFull none none 0 (lossSeqW.take 0)).2.2 = none ∧
    leInf (runEndLoops cfgFull none none 0 (lossSeqW.take (1 + 1))).2.1
      (runEndLoops cfgFull none none 0 (lossSeqW.take 1)).2.1 = true ∧
    leInf (runEndLoops cfgFull none none 0 (lossSeqW.take (1 + 1))).2.2
      (runEndLoops cfgFull none none 0 (lossSeqW.take 1)).2.2 = true ∧
    (writesBest ((runEndLoops cfgFull none none 0 lossSeqW).1.getD 1 []) = true →
      (runEndLoops cfgFull none none 0 (lossSeqW.take (1 + 1))).2.1 =
        some (lossSeqW.getD 1 (0, 0)).1) ∧
    (writesBest ((runEndLoops cfgFull none none 0 lossSeqW).1.getD 1 []) = false →
      (runEndLoops cfgFull none none 0 (lossSeqW.take (1 + 1))).2.1 =
        (runEndLoops cfgFull none none 0 (lossSeqW.take 1)).2.1) :=
  best_checkpoint_gate_monotone lossSeqW 1 (by decide)
